import Mathlib

/-!
# Verification of the jurist-diction situation-analysis engine

Shallow embedding of the decision logic of the repository:

* `src/unnamed/part_004` — Tennessee expungement situation analyzer
  (`determineChargeType`, `determineOutcome`, `assessEligibility`,
  `checkIneligibleOffenses`, `checkWaitingPeriod`, `checkCourtObligations`,
  `determineProcedure`).
* `src/unnamed/part_000` — multi-state expungement packet generator
  (`calculateYearsSince`, `analyzeEligibility` / `analyzeTNEligibility`).
* `src/lib/eviction-situation-analyzer.js` — eviction defense analyzer
  (`determineEvictionType`, `analyzeTimeline`, `identifyDefenses`,
  `mapProcedureDefense`, `addUniversalDefenses`, `prioritizeDefenses`,
  `determineUrgency`, `analyzeSituation`).
* `src/unnamed/part_001` — multi-state eviction packet generator
  (`determineEvictionType`).

Conventions of the embedding:

* Clock instants and dates are integers (milliseconds since the epoch, as in
  JavaScript `Date`).  `new Date()` (the current instant) becomes an explicit
  `now : Int` parameter.
* `Math.floor(a / b)` of an exact quotient with positive divisor `b` is
  integer flooring division, `jsFloorDiv`; `Math.ceil` is `jsCeilDiv`.
* String `includes` (substring test) is `jsIncludes`; `toLowerCase` is
  `jsToLower`.
* Fields of the JavaScript records that are pure display text (long
  human-readable messages, checklists, citations, fee data loaded from JSON)
  and that no decision logic reads back are omitted from the Lean records;
  every field that any branch of the decision logic inspects is kept.
* JSON data tables (`procedures.json`, `defenseStrategies`) that live outside
  `src/` are passed as explicit parameters.
-/

/-- JavaScript `toLowerCase`, realised characterwise (as `String.toLower`
does, but in a form the kernel evaluates). -/
def jsToLower (s : String) : String := String.mk (s.data.map Char.toLower)

/-- Helper for `jsIncludes`: is `needle` a contiguous sublist of the haystack? -/
def listContainsSub (needle : List Char) : List Char → Bool
  | [] => needle.isEmpty
  | c :: t => needle.isPrefixOf (c :: t) || listContainsSub needle t

/-- JavaScript `hay.includes(needle)` — substring containment test. -/
def jsIncludes (hay needle : String) : Bool :=
  listContainsSub needle.toList hay.toList

/-- `Math.floor(a / b)` for integer `a` and positive integer divisor `b`:
flooring integer division. -/
def jsFloorDiv (a : Int) (b : Nat) : Int := a / (b : Int)

/-- `Math.ceil(a / b)` for integer `a` and positive integer divisor `b`:
ceiling integer division. -/
def jsCeilDiv (a : Int) (b : Nat) : Int := -((-a) / (b : Int))

/-- Milliseconds in a day: `1000 * 60 * 60 * 24`. -/
def msPerDay : Nat := 1000 * 60 * 60 * 24

/-- Milliseconds in a 365-day year: `1000 * 60 * 60 * 24 * 365`
(the divisor used by `checkWaitingPeriod` in `src/unnamed/part_004`). -/
def msPerYear365 : Nat := 1000 * 60 * 60 * 24 * 365

/-- Milliseconds in an average (365.25-day) year:
`1000 * 60 * 60 * 24 * 365.25` (the divisor used by `calculateYearsSince`
in `src/unnamed/part_000`); the product is the exact integer 31557600000. -/
def msPerAvgYear : Nat := 31557600000

/-! ## Criminal-relief analyzer (`src/unnamed/part_004`) -/

/-- The sanitized situation record produced by `sanitizeInput`
(`src/unnamed/part_004`): every boolean defaults to `false`, every date to
absent, strings to sentinels.  Dates are epoch milliseconds. -/
structure CrimSituation where
  chargeType : String := "unknown"
  chargeDescription : String := "Not provided"
  convictionDate : Option Int := none
  sentenceCompletionDate : Option Int := none
  outcome : String := "unknown"
  county : String := "unknown"
  allFinesPaid : Bool := false
  probationCompleted : Bool := false
  diversionCompleted : Bool := false
  hasPendingCharges : Bool := false
  priorExpungements : Int := 0
deriving Repr, DecidableEq

/-- `determineChargeType` (`src/unnamed/part_004`), restricted to the
`category` field, the only field the decision logic reads (the `class` and
`description` fields are display text). -/
def determineChargeTypeCategory (s : CrimSituation) : String :=
  let t := jsToLower s.chargeType
  if jsIncludes t "felony" || jsIncludes t "class e" || jsIncludes t "class d" then
    "felony"
  else if jsIncludes t "misdemeanor" || jsIncludes t "class a" ||
      jsIncludes t "class b" || jsIncludes t "class c" then
    "misdemeanor"
  else
    "unknown"

/-- `determineOutcome` (`src/unnamed/part_004`). -/
def determineOutcome (s : CrimSituation) : String :=
  let o := jsToLower s.outcome
  if jsIncludes o "dismiss" || jsIncludes o "dropped" then
    "dismissed"
  else if jsIncludes o "acquitt" || jsIncludes o "not guilty" ||
      jsIncludes o "found not guilty" then
    "acquitted"
  else if jsIncludes o "diversion" || jsIncludes o "deferred" then
    (if s.diversionCompleted then "diversion_completed" else "diversion_pending")
  else if jsIncludes o "convict" || jsIncludes o "guilty" || jsIncludes o "plea" then
    "convicted"
  else
    "unknown"

/-- A blocking factor record (`factor`, `severity`, `description`, optional
`statute`) as pushed onto `eligibility.blockingFactors`. -/
structure BlockingFactor where
  factor : String
  severity : String
  description : String
  statute : Option String := none
deriving Repr, DecidableEq

/-- The list of violent-felony keyword indicators of `checkIneligibleOffenses`. -/
def violentIndicators : List String :=
  ["murder", "manslaughter", "kidnap", "robbery", "arson", "homicide",
   "weapon", "firearm", "gun"]

/-- `checkIneligibleOffenses` (`src/unnamed/part_004`): `some bf` models
`{ineligible: true, reason: bf}`, `none` models `{ineligible: false}`.
Long description strings are abbreviated to their `factor` names; the
branching structure and keyword tests follow the source exactly. -/
def checkIneligibleOffenses (s : CrimSituation) (category : String) :
    Option BlockingFactor :=
  let d := jsToLower s.chargeDescription
  if jsIncludes d "dui" || jsIncludes d "driving under" || jsIncludes d "d.u.i" then
    some ⟨"DUI conviction", "blocking",
      "DUI convictions are not eligible for expungement in Tennessee",
      some "TCA 40-32-101(g)"⟩
  else if jsIncludes d "domestic" && (jsIncludes d "assault" || jsIncludes d "violence") then
    some ⟨"Domestic assault conviction", "blocking",
      "Domestic assault convictions are not eligible for expungement in Tennessee",
      some "TCA 40-32-101(g)"⟩
  else if jsIncludes d "sex" || jsIncludes d "rape" || jsIncludes d "sexual" ||
      jsIncludes d "statutory" then
    some ⟨"Sex offense", "blocking",
      "Sex offenses are not eligible for expungement in Tennessee",
      some "TCA 40-32-101"⟩
  else if category = "felony" && violentIndicators.any (fun k => jsIncludes d k) then
    some ⟨"Violent felony", "blocking",
      "Violent felonies are not eligible for expungement in Tennessee",
      some "TCA 40-32-101(a)(1)(B)"⟩
  else if jsIncludes d "traffick" || jsIncludes d "manufacture" ||
      jsIncludes d "distribute" || jsIncludes d "sell" then
    some ⟨"Drug trafficking/manufacturing", "blocking",
      "Drug trafficking and manufacturing offenses are not eligible for expungement in Tennessee",
      some "TCA 40-32-101"⟩
  else
    none

/-- Result of `checkWaitingPeriod`: the `required` label and the `met` flag
(the `yearsRemaining`/`note` display strings are omitted). -/
structure WaitingCheck where
  required : String
  met : Bool
deriving Repr, DecidableEq

/-- `checkWaitingPeriod` (`src/unnamed/part_004`).  The source computes
`yearsSinceCompletion = (now - completionDate) / (1000*60*60*24*365)` as an
un-floored real quotient and compares it with the threshold; the exact
rational quotient is used here. -/
def checkWaitingPeriod (s : CrimSituation) (category : String) (now : Int) :
    WaitingCheck :=
  match s.sentenceCompletionDate with
  | none => ⟨if category = "felony" then "5 years" else "1 year", false⟩
  | some c =>
    let years : ℚ := ((now - c : Int) : ℚ) / (msPerYear365 : ℚ)
    if category = "felony" then
      ⟨"5 years", decide (years ≥ 5)⟩
    else
      ⟨"1 year", decide (years ≥ 1)⟩

/-- `checkCourtObligations` (`src/unnamed/part_004`), restricted to its `met`
flag (the `issues` list is display text): `met` is false iff fines are unpaid
or probation incomplete. -/
def checkCourtObligations (s : CrimSituation) : Bool :=
  s.allFinesPaid && s.probationCompleted

/-- The eligibility record assembled by `assessEligibility`. -/
structure Eligibility where
  status : String
  confidence : String
  reasons : List String
  blockingFactors : List BlockingFactor
  waitingPeriod : Option String
  waitingPeriodMet : Bool
  requirements : List String
deriving Repr, DecidableEq

/-- `assessEligibility` (`src/unnamed/part_004`): the finite evaluation
sequence over (pending charges, outcome, blocked offenses, waiting period,
court obligations).  Each branch of the source mutates an initial record and
returns; here each branch produces the final record directly. -/
def assessEligibility (s : CrimSituation) (category : String) (outcome : String)
    (now : Int) : Eligibility :=
  if s.hasPendingCharges then
    { status := "ineligible", confidence := "low", reasons := [],
      blockingFactors := [⟨"Pending criminal charges", "blocking",
        "You cannot file for expungement while you have pending criminal charges",
        none⟩],
      waitingPeriod := none, waitingPeriodMet := false, requirements := [] }
  else if outcome = "dismissed" ∨ outcome = "acquitted" then
    { status := "eligible", confidence := "high",
      reasons := ["Charges were dismissed or resulted in acquittal"],
      blockingFactors := [], waitingPeriod := some "None", waitingPeriodMet := true,
      requirements := ["Obtain certified copy of dismissal or acquittal order"] }
  else if outcome = "diversion_completed" then
    { status := "eligible", confidence := "high",
      reasons := ["Diversion program was successfully completed"],
      blockingFactors := [], waitingPeriod := some "None (after completion)",
      waitingPeriodMet := true,
      requirements := ["Obtain Certificate of Completion from diversion program"] }
  else if outcome = "diversion_pending" then
    { status := "pending", confidence := "medium",
      reasons := ["Diversion program not yet completed"],
      blockingFactors := [], waitingPeriod := none, waitingPeriodMet := false,
      requirements := ["Complete all diversion requirements"] }
  else if outcome = "convicted" then
    match checkIneligibleOffenses s category with
    | some bf =>
      { status := "ineligible", confidence := "high", reasons := [],
        blockingFactors := [bf], waitingPeriod := none, waitingPeriodMet := false,
        requirements := [] }
    | none =>
      let wp := checkWaitingPeriod s category now
      let obligationsMet := checkCourtObligations s
      if ¬wp.met then
        { status := "pending", confidence := "medium",
          reasons := ["Waiting period of " ++ wp.required ++ " not yet completed"],
          blockingFactors := [], waitingPeriod := some wp.required,
          waitingPeriodMet := false,
          requirements := ["Wait until " ++ wp.required ++
            " have passed since sentence completion"] }
      else if ¬obligationsMet then
        { status := "ineligible", confidence := "medium", reasons := [],
          blockingFactors := [⟨"Outstanding court obligations", "blocking",
            "All fines, costs, and restitution must be paid before expungement",
            none⟩],
          waitingPeriod := some wp.required, waitingPeriodMet := true,
          requirements := [] }
      else
        { status := "eligible", confidence := "medium",
          reasons := ["Basic eligibility requirements appear to be met"],
          blockingFactors := [], waitingPeriod := some wp.required,
          waitingPeriodMet := true,
          requirements := ["Verify eligibility with court clerk or attorney"] }
  else
    { status := "unknown", confidence := "low", reasons := [],
      blockingFactors := [], waitingPeriod := none, waitingPeriodMet := false,
      requirements := ["Obtain records to determine case outcome"] }

/-- The outcome → procedure-key map of `determineProcedure`
(`src/unnamed/part_004`): `none` models a key absent from `proceduresMap`. -/
def proceduresMapLookup (outcome : String) (category : String) : Option String :=
  if outcome = "dismissed" then some "dismissedCharges"
  else if outcome = "acquitted" then some "dismissedCharges"
  else if outcome = "diversion_completed" then
    some (if category = "felony" then "judicialDiversion" else "judicialDiversion")
  else if outcome = "convicted" then
    some (if category = "felony" then "felonyConviction" else "misdemeanorConviction")
  else none

/-- `determineProcedure` (`src/unnamed/part_004`).  The `procedures.procedures`
JSON table (a data file outside `src/`) is the `table` parameter, a finite
map from procedure keys to procedure payloads.  The source computes
`proceduresMap[outcome] || 'general'` and then returns
`procedures.procedures[procedureKey] || null`; `none` models `null`.
The function is total: no branch throws. -/
def determineProcedure (outcome : String) (category : String)
    (table : List (String × String)) : Option String :=
  let procedureKey := (proceduresMapLookup outcome category).getD "general"
  table.lookup procedureKey

/-! ## Multi-state expungement analyzer (`src/unnamed/part_000`) -/

/-- `calculateYearsSince` (`src/unnamed/part_000`): years since a date using a
365.25-day average year, via `Math.floor`.  A `null` date yields `0`.  The
source floors the exact quotient `diffMs / 31557600000`; for the positive
divisor this is flooring integer division. -/
def calculateYearsSince (date : Option Int) (now : Int) : Int :=
  match date with
  | none => 0
  | some t => jsFloorDiv (now - t) msPerAvgYear

/-- The raw situation record consumed by `analyzeEligibility`
(`src/unnamed/part_000`).  Unlike the single-state analyzer there is no
`sanitizeInput` step; the API (`src/api/expungement-multi-state.js`) forwards
the user's situation object, whose optional fields include
`hasPendingCharges` — a field this analyzer never reads. -/
structure MSSituation where
  chargeType : String := ""
  outcome : String := ""
  convictionDate : Option Int := none
  sentenceCompletionDate : Option Int := none
  diversionType : String := ""
  hasPendingCharges : Bool := false
deriving Repr, DecidableEq

/-- The `analysis.eligibility` sub-record built by `analyzeEligibility`
(`src/unnamed/part_000`); `blockingFactors` entries are (factor, description)
pairs.  The `confidence` field (constant `'medium'`) and the display-only
sub-records (`cleanSlate.estimatedTimeline`, `petitionBased`) are omitted. -/
structure MSEligibility where
  status : String := "pending"
  reasons : List String := []
  blockingFactors : List (String × String) := []
  waitingPeriod : Option String := none
  waitingPeriodMet : Option Bool := none
deriving Repr, DecidableEq

/-- The derived context handed to the per-state analyzers by
`analyzeEligibility`. -/
structure MSContext where
  hasConviction : Bool
  wasDismissed : Bool
  completedDiversion : Bool
  chargeType : String
  yearsSinceDisposition : Int
deriving Repr, DecidableEq

/-- `analyzeTNEligibility` (`src/unnamed/part_000`), restricted to the
`eligibility` record and the `applicableProcedure` key (second component);
`nextSteps`/`petitionBased` mutations are display-only and omitted.  Note
that no branch of this function (nor of `analyzeEligibility` around it)
consults `hasPendingCharges`. -/
def analyzeTNEligibility (s : MSSituation) (ctx : MSContext) :
    MSEligibility × Option String :=
  let eligibility : MSEligibility := {}
  if ctx.wasDismissed then
    ({ eligibility with
       status := "eligible",
       reasons := ["Dismissed or acquitted charges are immediately eligible"] },
     some "dismissedCharges")
  else if ctx.completedDiversion then
    ({ eligibility with
       status := "eligible",
       reasons := ["Completed diversion is eligible for expungement"] },
     some (if jsIncludes s.diversionType "judicial" then "judicialDiversion"
           else "pretrialDiversion"))
  else if ctx.hasConviction then
    let isDUI := jsIncludes ctx.chargeType "dui" || jsIncludes ctx.chargeType "dwi"
    let isDomesticAssault := jsIncludes ctx.chargeType "domestic" &&
      jsIncludes ctx.chargeType "assault"
    let isSexOffense := jsIncludes ctx.chargeType "sex" || jsIncludes ctx.chargeType "rape"
    let isFelony := jsIncludes ctx.chargeType "felony"
    let isMisdemeanor := jsIncludes ctx.chargeType "misdemeanor"
    if isDUI || isDomesticAssault || isSexOffense then
      ({ eligibility with
       status := "ineligible",
         blockingFactors := [("Ineligible Offense",
           "This offense type is not eligible for expungement in Tennessee")] },
       none)
    else if isFelony then
      if ctx.yearsSinceDisposition ≥ 5 then
        ({ eligibility with
       status := "eligible",
           reasons := ["Non-violent felony eligible after 5 years"] },
         some "felonyConviction")
      else
        ({ eligibility with
       status := "pending",
           waitingPeriod := some (toString (5 - ctx.yearsSinceDisposition) ++ " more years") },
         some "felonyConviction")
    else if isMisdemeanor then
      if ctx.yearsSinceDisposition ≥ 1 then
        ({ eligibility with
       status := "eligible",
           reasons := ["Misdemeanor eligible after 1 year"] },
         some "misdemeanorConviction")
      else
        ({ eligibility with
       status := "pending",
           waitingPeriod := some (toString (1 - ctx.yearsSinceDisposition) ++ " more years") },
         some "misdemeanorConviction")
    else
      (eligibility, none)
  else
    (eligibility, none)

/-- The keyword tables `analyzeEligibility` (`src/unnamed/part_000`) matches
against the lowercased outcome string. -/
def msConvictionWords : List String := ["conviction", "convicted", "guilty", "plea"]

def msDismissedWords : List String :=
  ["dismissed", "acquitted", "not guilty", "nolle prosequi", "withdrawn"]

def msDiversionWords : List String :=
  ["diversion", "ard", "probation completed", "program completed"]

/-- `analyzeEligibility` (`src/unnamed/part_000`) specialised to
`state = 'TN'` (the `PA`/`NJ` branches dispatch the same derived context to
their own analyzers): derives the boolean context from the lowercased
`chargeType`/`outcome` strings and `calculateYearsSince`, then runs
`analyzeTNEligibility`.  The statute/procedure JSON loads succeed for `TN`
and their payloads are never read by the eligibility computation. -/
def analyzeEligibilityTN (s : MSSituation) (now : Int) :
    MSEligibility × Option String :=
  let chargeType := jsToLower s.chargeType
  let outcome := jsToLower s.outcome
  let hasConviction := msConvictionWords.any (fun o => jsIncludes outcome o)
  let wasDismissed := msDismissedWords.any (fun o => jsIncludes outcome o)
  let completedDiversion := msDiversionWords.any (fun o => jsIncludes outcome o)
  let yearsSinceDisposition :=
    calculateYearsSince (s.sentenceCompletionDate.orElse (fun _ => s.convictionDate)) now
  analyzeTNEligibility s
    ⟨hasConviction, wasDismissed, completedDiversion, chargeType, yearsSinceDisposition⟩

/-! ## Eviction defense analyzer (`src/lib/eviction-situation-analyzer.js`) -/

/-- The tenant situation record.  Booleans model the source's
`x === true || x === 'true'` tests; dates are epoch milliseconds, absent
dates `none`.  Field defaults model absent (falsy/undefined) JS fields. -/
structure EvSituation where
  evictionReason : String := ""
  noticeReceived : Bool := false
  noticeType : String := "unknown"
  noticeDate : Option Int := none
  filingDate : Option Int := none
  courtDate : Option Int := none
  judgmentReceived : Bool := false
  judgmentDate : Option Int := none
  paymentMade : Bool := false
  propertyCondition : String := ""
  recentComplaint : Bool := false
  violationCured : Bool := false
  rentAcceptedAfterLeaseEnd : Bool := false
  tenantUnaware : Bool := false
  reportedActivity : Bool := false
  partialPaymentAccepted : Bool := false
  locksChanged : Bool := false
  utilitiesShutOff : Bool := false
  county : String := ""
deriving Repr, DecidableEq

/-- The eviction-type record returned by `determineEvictionType`
(`src/lib/eviction-situation-analyzer.js`): the category tag, display name
and required notice period.  The `description` text and the `procedures`
payload (looked up in the `defenseStrategies` JSON table keyed by `type`)
are carried separately. -/
structure EvictionType where
  type : String
  displayName : String
  noticeRequired : Int
deriving Repr, DecidableEq

/-- `determineEvictionType` (`src/lib/eviction-situation-analyzer.js`):
first-match classification over the lowercased free-text reason. -/
def determineEvictionType (data : EvSituation) : EvictionType :=
  let lr := jsToLower data.evictionReason
  if jsIncludes lr "non-payment" || jsIncludes lr "nonpayment" ||
      jsIncludes lr "rent" || jsIncludes lr "unpaid" ||
      jsIncludes lr "behind on rent" then
    ⟨"nonpayment", "Non-Payment of Rent", 14⟩
  else if jsIncludes lr "lease violation" || jsIncludes lr "violation" ||
      jsIncludes lr "breach" || jsIncludes lr "unauthorized" ||
      jsIncludes lr "pet" || jsIncludes lr "guest" then
    ⟨"leaseViolation", "Lease Violation", 30⟩
  else if jsIncludes lr "holdover" || jsIncludes lr "expired" ||
      jsIncludes lr "end of lease" || jsIncludes lr "staying after" ||
      jsIncludes lr "month to month" then
    ⟨"holdover", "Holdover Tenant", 30⟩
  else if jsIncludes lr "criminal" || jsIncludes lr "illegal" ||
      jsIncludes lr "drug" || jsIncludes lr "crime" ||
      jsIncludes lr "nuisance" then
    ⟨"illegalActivity", "Criminal/Illegal Activity", 3⟩
  else
    ⟨"nonpayment", "Non-Payment of Rent (Assumed)", 14⟩

/-- A timeline issue (`type`, `severity`, optional `defense` pointer); the
human-readable `message`/`details`/`deadline` strings are omitted. -/
structure TimelineIssue where
  itype : String
  severity : String
  defense : Option String := none
deriving Repr, DecidableEq

/-- The `calculationDetails` object of `analyzeTimeline`: every numeric
detail starts absent and is filled in by the block that computes it. -/
structure TimelineCalc where
  daysBetweenNoticeAndFiling : Option Int := none
  requiredDays : Option Int := none
  daysUntilCourt : Option Int := none
  daysSinceJudgment : Option Int := none
  daysLeftToAppeal : Option Int := none
deriving Repr, DecidableEq

/-- The timeline-analysis record of `analyzeTimeline`. -/
structure TimelineAnalysis where
  noticeGiven : Bool
  issues : List TimelineIssue
  compliant : Bool
  calculationDetails : TimelineCalc
deriving Repr, DecidableEq

/-- First block of `analyzeTimeline` (`src/lib/eviction-situation-analyzer.js`,
the `if (analysis.noticeDate && analysis.filingDate)` block): when both dates
are present, computes `daysBetween` with `Math.floor`, records the
calculation details, and on `daysBetween < noticeRequired` pushes the
`insufficient_notice` issue (pointing at the `improper_notice` defense) and
clears `compliant`. -/
def noticeStep (data : EvSituation) (a : TimelineAnalysis) : TimelineAnalysis :=
  let evictionType := determineEvictionType data
  match data.noticeDate, data.filingDate with
  | some n, some f =>
    let daysBetween := jsFloorDiv (f - n) msPerDay
    let calc1 :=
      { a.calculationDetails with
        daysBetweenNoticeAndFiling := some daysBetween,
        requiredDays := some evictionType.noticeRequired }
    if daysBetween < evictionType.noticeRequired then
      { a with
        calculationDetails := calc1, compliant := false,
        issues := a.issues ++
          [⟨"insufficient_notice", "high", some "improper_notice"⟩] }
    else
      { a with calculationDetails := calc1 }
  | _, _ => a

/-- Second block of `analyzeTimeline` (the `if (analysis.courtDate)` block):
ceiling days until the court date, with past/urgent/upcoming issues. -/
def courtStep (data : EvSituation) (now : Int) (a : TimelineAnalysis) :
    TimelineAnalysis :=
  match data.courtDate with
  | some c =>
    let daysUntilCourt := jsCeilDiv (c - now) msPerDay
    let calc2 := { a.calculationDetails with daysUntilCourt := some daysUntilCourt }
    if daysUntilCourt ≤ 0 then
      { a with
        calculationDetails := calc2,
        issues := a.issues ++ [⟨"past_court_date", "critical", none⟩] }
    else if daysUntilCourt ≤ 3 then
      { a with
        calculationDetails := calc2,
        issues := a.issues ++ [⟨"urgent_court_date", "critical", none⟩] }
    else if daysUntilCourt ≤ 7 then
      { a with
        calculationDetails := calc2,
        issues := a.issues ++ [⟨"upcoming_court_date", "high", none⟩] }
    else
      { a with calculationDetails := calc2 }
  | none => a

/-- Third block of `analyzeTimeline` (the `if (data.judgmentReceived ...)`
block): when a judgment was received, the judgment date defaults to
`new Date()` (i.e. `now`), days since judgment are floored, the remaining
appeal window is `max(0, 10 - daysSinceJudgment)`, and either the
`appeal_deadline` or the `appeal_deadline_passed` issue is pushed. -/
def judgmentStep (data : EvSituation) (now : Int) (a : TimelineAnalysis) :
    TimelineAnalysis :=
  if data.judgmentReceived then
    let judgmentDate := data.judgmentDate.getD now
    let daysSinceJudgment := jsFloorDiv (now - judgmentDate) msPerDay
    let daysLeftToAppeal := max 0 (10 - daysSinceJudgment)
    let calc3 :=
      { a.calculationDetails with
        daysSinceJudgment := some daysSinceJudgment,
        daysLeftToAppeal := some daysLeftToAppeal }
    if daysLeftToAppeal > 0 then
      { a with
        calculationDetails := calc3,
        issues := a.issues ++ [⟨"appeal_deadline", "critical", none⟩] }
    else
      { a with
        calculationDetails := calc3,
        issues := a.issues ++ [⟨"appeal_deadline_passed", "critical", none⟩] }
  else a

/-- `analyzeTimeline` (`src/lib/eviction-situation-analyzer.js`): starts from
the initial record (`noticeGiven` from the `noticeReceived` flag, no issues,
`compliant: true`, empty calculation details) and applies the three
sequential blocks in source order. -/
def analyzeTimeline (data : EvSituation) (now : Int) : TimelineAnalysis :=
  judgmentStep data now (courtStep data now (noticeStep data
    { noticeGiven := data.noticeReceived, issues := [], compliant := true,
      calculationDetails := {} }))

/-- A defense option as declared in the `defenseStrategies` data tables
(`data/eviction-defense/tn/procedures.json`): its id and display name (the
checklist/documentation/citation payloads are display text). -/
structure ProcedureDefense where
  id : String
  name : String
deriving Repr, DecidableEq

/-- A concrete defense as assembled by the analyzer. -/
structure Defense where
  id : String
  name : String
  strength : String
deriving Repr, DecidableEq

/-- `mapProcedureDefense` (`src/lib/eviction-situation-analyzer.js`): the
strength of each policy-declared defense is decided by the `switch` on the
defense id over the situation's flags; all unmatched ids get `potential`.
The source always returns an object (never null/undefined). -/
def mapProcedureDefense (pd : ProcedureDefense) (data : EvSituation) : Defense :=
  let strength :=
    if pd.id = "improper_notice" ∨ pd.id = "improper_notice_30" ∨
        pd.id = "improper_termination_notice" ∨ pd.id = "improper_3_day_notice" then
      (if data.noticeReceived then "potential" else "strong")
    else if pd.id = "payment_made" then
      (if data.paymentMade then "strong" else "potential")
    else if pd.id = "habitability" then
      (if data.propertyCondition = "poor" ∨ data.propertyCondition = "uninhabitable"
       then "moderate" else "potential")
    else if pd.id = "retaliation" then
      (if data.recentComplaint then "moderate" else "potential")
    else if pd.id = "violation_cured" then
      (if data.violationCured then "strong" else "potential")
    else if pd.id = "no_violation" then "potential"
    else if pd.id = "new_tenancy_created" then
      (if data.rentAcceptedAfterLeaseEnd then "moderate" else "potential")
    else if pd.id = "lack_of_knowledge" then
      (if data.tenantUnaware then "moderate" else "potential")
    else if pd.id = "prompt_action" then
      (if data.reportedActivity then "moderate" else "potential")
    else "potential"
  { id := pd.id, name := pd.name, strength := strength }

/-- `addUniversalDefenses` (`src/lib/eviction-situation-analyzer.js`):
appends the partial-payment (moderate) and illegal-self-help (strong)
defenses when the corresponding flags are set. -/
def addUniversalDefenses (defenses : List Defense) (data : EvSituation) :
    List Defense :=
  let d1 :=
    if data.partialPaymentAccepted then
      defenses ++ [⟨"partial_payment_acceptance", "Acceptance of Partial Payment",
        "moderate"⟩]
    else defenses
  if data.locksChanged || data.utilitiesShutOff then
    d1 ++ [⟨"self_help_eviction", "Illegal Self-Help Eviction", "strong"⟩]
  else d1

/-- `identifyDefenses` (`src/lib/eviction-situation-analyzer.js`): maps all
policy-declared defense options for the eviction category through
`mapProcedureDefense` (the source pushes each result; `mapProcedureDefense`
always returns a truthy object, so every option is kept), then appends the
universal defenses.  The `defenseStrategies` table (a JSON data file outside
`src/`) is the `strategies` parameter, keyed by category tag. -/
def identifyDefenses (strategies : String → List ProcedureDefense)
    (data : EvSituation) (evictionType : EvictionType) : List Defense :=
  addUniversalDefenses
    ((strategies evictionType.type).map (fun pd => mapProcedureDefense pd data))
    data

/-- The numeric rank of a defense strength:
`{ strong: 1, moderate: 2, potential: 3 }` with `|| 4` for anything else
(`prioritizeDefenses`, `src/lib/eviction-situation-analyzer.js`). -/
def strengthOrder (s : String) : Nat :=
  if s = "strong" then 1
  else if s = "moderate" then 2
  else if s = "potential" then 3
  else 4

/-- One insertion step of a stable sort by `strengthOrder`: the element
being inserted stands earlier in the input than everything already inserted,
so it is placed before the first element of greater-or-equal rank (keeping
it ahead of equal-rank elements, as a stable sort requires). -/
def insertByStrength (x : Defense) : List Defense → List Defense
  | [] => [x]
  | y :: ys =>
    if strengthOrder y.strength < strengthOrder x.strength then
      y :: insertByStrength x ys
    else
      x :: y :: ys

/-- `prioritizeDefenses` (`src/lib/eviction-situation-analyzer.js`):
`[...defenses].sort((a, b) => orderA - orderB)`.  `Array.prototype.sort` is
a stable sort (ECMA-262); a stable sort with respect to the rank comparator
is extensionally unique, and is realised here as a stable insertion sort. -/
def prioritizeDefenses (defenses : List Defense) : List Defense :=
  defenses.foldr insertByStrength []

/-- `determineUrgency` (`src/lib/eviction-situation-analyzer.js`):
judgment received is always `critical`; otherwise ceiling days until the
court date against the 3/7/14-day thresholds; no court date is `standard`. -/
def determineUrgency (data : EvSituation) (now : Int) : String :=
  if data.judgmentReceived then "critical"
  else
    match data.courtDate with
    | some c =>
      let daysUntilCourt := jsCeilDiv (c - now) msPerDay
      if daysUntilCourt ≤ 3 then "critical"
      else if daysUntilCourt ≤ 7 then "urgent"
      else if daysUntilCourt ≤ 14 then "elevated"
      else "standard"
    | none => "standard"

/-- The analysis record assembled by `analyzeSituation`
(`src/lib/eviction-situation-analyzer.js`).  `timestamp` models
`new Date().toISOString()` by the clock instant itself (the ISO rendering of
the millisecond instant is injective).  The `nextSteps`, `missingInformation`
and `resources` fields (display text and county JSON lookups) are omitted. -/
structure EvAnalysis where
  timestamp : Int
  evictionType : EvictionType
  timelineAnalysis : TimelineAnalysis
  defenses : List Defense
  recommendedDefenses : List Defense
  urgencyLevel : String
  county : String
deriving Repr, DecidableEq

/-- `analyzeSituation` (`src/lib/eviction-situation-analyzer.js`): assembles
classification, timeline analysis, identified and prioritized defenses and
urgency into one record.  The county defaults to `'unknown'` when absent
(the source's `situationData.county || 'unknown'`). -/
def analyzeSituationEv (strategies : String → List ProcedureDefense)
    (data : EvSituation) (now : Int) : EvAnalysis :=
  let evictionType := determineEvictionType data
  let defenses := identifyDefenses strategies data evictionType
  { timestamp := now,
    evictionType := evictionType,
    timelineAnalysis := analyzeTimeline data now,
    defenses := defenses,
    recommendedDefenses := prioritizeDefenses defenses,
    urgencyLevel := determineUrgency data now,
    county := if data.county = "" then "unknown" else data.county }

/-- `determineEvictionType` (`src/unnamed/part_001`), restricted to the
category tag (the notice period and display name come from the state
config).  The caller (`analyzeSituationForState`) lowercases the reason
before the call. -/
def determineEvictionTypeMS (reason : String) : String :=
  if jsIncludes reason "non-payment" || jsIncludes reason "nonpayment" ||
      jsIncludes reason "rent" then
    "nonpayment"
  else if jsIncludes reason "violation" || jsIncludes reason "breach" then
    "leaseViolation"
  else if jsIncludes reason "holdover" || jsIncludes reason "expired" ||
      jsIncludes reason "end of lease" then
    "holdover"
  else if jsIncludes reason "illegal" || jsIncludes reason "criminal" ||
      jsIncludes reason "drug" then
    "illegalActivity"
  else
    "nonpayment"

/-! ## Specification-side definitions

Definitions written from the specification's words, to be compared with the
source embeddings above (refinement claims), plus the data tables the spec
describes that are not part of `src/`. -/

/-- The spec's classifier contract (§4.3): evaluate an ordered list of
(keyword-set → category) rules against the text; return the category of the
first rule one of whose keywords occurs in the text; if none matches,
return the designated default category. -/
def firstMatchCategory (rules : List (List String × String)) (dflt : String)
    (text : String) : String :=
  match rules.find? (fun r => r.1.any (fun k => jsIncludes text k)) with
  | some r => r.2
  | none => dflt

/-- The ordered keyword rules of `determineEvictionType`
(`src/lib/eviction-situation-analyzer.js`), read off the source's `if`
cascade in order. -/
def libEvictionRules : List (List String × String) :=
  [ (["non-payment", "nonpayment", "rent", "unpaid", "behind on rent"],
     "nonpayment"),
    (["lease violation", "violation", "breach", "unauthorized", "pet", "guest"],
     "leaseViolation"),
    (["holdover", "expired", "end of lease", "staying after", "month to month"],
     "holdover"),
    (["criminal", "illegal", "drug", "crime", "nuisance"],
     "illegalActivity") ]

/-- The ordered keyword rules of `determineEvictionType`
(`src/unnamed/part_001`), read off the source's `if` cascade in order. -/
def msEvictionRules : List (List String × String) :=
  [ (["non-payment", "nonpayment", "rent"], "nonpayment"),
    (["violation", "breach"], "leaseViolation"),
    (["holdover", "expired", "end of lease"], "holdover"),
    (["illegal", "criminal", "drug"], "illegalActivity") ]

/-- The spec's years-elapsed computation (§4.4): elapsed milliseconds divided
by the average-year length (365.25 days), floored. -/
def yearsFloorSpec (ms : Int) : Int :=
  ⌊((ms : ℚ) / (msPerAvgYear : ℚ))⌋

/-- Modelled from the spec: the nonpayment defense-option table.  The
`defenseStrategies` tables live in `data/eviction-defense/tn/procedures.json`,
a data file not present under `src/`; the spec (§4.5, example scenario 4)
names the "improper notice", "payment made" and "habitability" options for
the nonpayment category. -/
def specDefenseStrategies : String → List ProcedureDefense
  | "nonpayment" =>
    [⟨"improper_notice", "Improper Notice"⟩,
     ⟨"payment_made", "Payment Made"⟩,
     ⟨"habitability", "Habitability / Property Conditions"⟩]
  | _ => []

/-! ## Helper lemmas -/

/-- Flooring integer division coincides with the floor of the exact rational
quotient (`Math.floor(a / b)` for positive integer `b`). -/
theorem jsFloorDiv_eq_floor (a : Int) (b : Nat) :
    jsFloorDiv a b = ⌊((a : ℚ) / (b : ℚ))⌋ :=
  (Rat.floor_intCast_div_natCast a b).symm

/-- Insertion keeps exactly the inserted element and the old ones. -/
theorem insertByStrength_perm (x : Defense) (l : List Defense) :
    (insertByStrength x l).Perm (x :: l) := by
  induction l with
  | nil => simp [insertByStrength]
  | cons y ys ih =>
    by_cases h : strengthOrder y.strength < strengthOrder x.strength
    · rw [insertByStrength, if_pos h]
      exact (ih.cons y).trans (List.Perm.swap x y ys)
    · simp [insertByStrength, h]

theorem mem_insertByStrength {z x : Defense} {l : List Defense} :
    z ∈ insertByStrength x l ↔ z = x ∨ z ∈ l := by
  rw [(insertByStrength_perm x l).mem_iff, List.mem_cons]

/-- Inserting preserves sortedness by strength rank. -/
theorem insertByStrength_pairwise (x : Defense) (l : List Defense)
    (h : l.Pairwise (fun a b => strengthOrder a.strength ≤ strengthOrder b.strength)) :
    (insertByStrength x l).Pairwise
      (fun a b => strengthOrder a.strength ≤ strengthOrder b.strength) := by
  induction l with
  | nil => simp [insertByStrength]
  | cons y ys ih =>
    rcases List.pairwise_cons.1 h with ⟨hy, hys⟩
    by_cases hlt : strengthOrder y.strength < strengthOrder x.strength
    · rw [insertByStrength, if_pos hlt]
      refine List.pairwise_cons.2 ⟨?_, ih hys⟩
      intro z hz
      rcases mem_insertByStrength.1 hz with rfl | hz
      · exact le_of_lt hlt
      · exact hy z hz
    · rw [insertByStrength, if_neg hlt]
      refine List.pairwise_cons.2 ⟨?_, h⟩
      intro z hz
      rcases List.mem_cons.1 hz with rfl | hz
      · exact le_of_not_lt hlt
      · exact le_trans (le_of_not_lt hlt) (hy z hz)

/-- Stability, positive case: an element of strength `s` is inserted before
every element of equal strength already present (it walks past only strictly
smaller ranks, and equal strength means equal rank). -/
theorem insertByStrength_filter_pos (x : Defense) (l : List Defense) (s : String)
    (hx : x.strength = s) :
    (insertByStrength x l).filter (fun d => d.strength == s) =
      x :: l.filter (fun d => d.strength == s) := by
  induction l with
  | nil => simp [insertByStrength, List.filter_cons, hx]
  | cons y ys ih =>
    by_cases hlt : strengthOrder y.strength < strengthOrder x.strength
    · have hy : y.strength ≠ s := by
        intro he
        have : strengthOrder y.strength = strengthOrder x.strength := by rw [he, hx]
        exact (ne_of_lt hlt) this
      rw [insertByStrength, if_pos hlt, List.filter_cons]
      simp only [beq_iff_eq, hy, if_false, ih, List.filter_cons]
    · rw [insertByStrength, if_neg hlt]
      simp [List.filter_cons, hx]

/-- Stability, negative case: inserting an element of a different strength
does not disturb the strength-`s` subsequence. -/
theorem insertByStrength_filter_neg (x : Defense) (l : List Defense) (s : String)
    (hx : x.strength ≠ s) :
    (insertByStrength x l).filter (fun d => d.strength == s) =
      l.filter (fun d => d.strength == s) := by
  induction l with
  | nil => simp [insertByStrength, List.filter_cons, hx]
  | cons y ys ih =>
    by_cases hlt : strengthOrder y.strength < strengthOrder x.strength
    · rw [insertByStrength, if_pos hlt]
      simp only [List.filter_cons, ih]
    · rw [insertByStrength, if_neg hlt]
      simp [List.filter_cons, hx]

/-! ## Claim theorems -/

/-- C1 (amended): in the Tennessee analyzer (`assessEligibility`,
`src/unnamed/part_004`), any input with `hasPendingCharges = true` yields the
terminal `ineligible` record with the single "Pending criminal charges"
blocking factor, identically for every other field, outcome, charge category
and clock instant — no further eligibility check contributes.  (As amended,
the property is restricted to `assessEligibility`: the multi-state
`analyzeEligibility` of `src/unnamed/part_000` never consults
`hasPendingCharges`, see the counterexample.) -/
theorem assessEligibility_pendingCharges_terminal (s : CrimSituation)
    (category outcome : String) (now : Int) (h : s.hasPendingCharges = true) :
    assessEligibility s category outcome now =
      { status := "ineligible", confidence := "low", reasons := [],
        blockingFactors := [⟨"Pending criminal charges", "blocking",
          "You cannot file for expungement while you have pending criminal charges",
          none⟩],
        waitingPeriod := none, waitingPeriodMet := false, requirements := [] } := by
  rw [assessEligibility, if_pos h]

/-- Witness for C1's amended theorem at a concrete input. -/
theorem assessEligibility_pendingCharges_terminal_witness :
    assessEligibility
        { hasPendingCharges := true, outcome := "dismissed", allFinesPaid := true }
        "felony" "dismissed" 0 =
      { status := "ineligible", confidence := "low", reasons := [],
        blockingFactors := [⟨"Pending criminal charges", "blocking",
          "You cannot file for expungement while you have pending criminal charges",
          none⟩],
        waitingPeriod := none, waitingPeriodMet := false, requirements := [] } :=
  assessEligibility_pendingCharges_terminal _ "felony" "dismissed" 0 rfl

/-- C1 (counterexample): the multi-state eligibility analyzer
(`analyzeEligibility` / `analyzeTNEligibility`, `src/unnamed/part_000`)
never reads `hasPendingCharges`: a Tennessee input whose outcome is
"dismissed" but which has pending charges is reported `eligible`, not
`ineligible` — refuting the claim that every criminal-relief evaluation with
`hasPendingCharges = true` terminates `ineligible`. -/
theorem analyzeEligibilityTN_ignores_pendingCharges :
    ({ outcome := "dismissed", hasPendingCharges := true } : MSSituation).hasPendingCharges
        = true ∧
    (analyzeEligibilityTN { outcome := "dismissed", hasPendingCharges := true } 0).1.status
        = "eligible" ∧
    (analyzeEligibilityTN { outcome := "dismissed", hasPendingCharges := true } 0).1.status
        ≠ "ineligible" := by
  refine ⟨rfl, by decide, by decide⟩

/-- C10 (amended): for a conviction with no `sentenceCompletionDate`, no
pending charges and no blocked offense, `checkWaitingPeriod` reports the
waiting period as unmet, so `assessEligibility` returns status `pending`
(in particular not `eligible`), no matter the obligation flags
(`allFinesPaid`, `probationCompleted`) or the clock. -/
theorem assessEligibility_conviction_no_completion_pending (s : CrimSituation)
    (category : String) (now : Int)
    (h1 : s.hasPendingCharges = false)
    (h2 : s.sentenceCompletionDate = none)
    (h3 : checkIneligibleOffenses s category = none) :
    (assessEligibility s category "convicted" now).status = "pending" ∧
    (assessEligibility s category "convicted" now).waitingPeriodMet = false ∧
    (assessEligibility s category "convicted" now).status ≠ "eligible" := by
  have hwp : checkWaitingPeriod s category now =
      ⟨if category = "felony" then "5 years" else "1 year", false⟩ := by
    rw [checkWaitingPeriod, h2]
  rw [assessEligibility, if_neg (by simp [h1]), if_neg (by decide),
    if_neg (by decide), if_neg (by decide), if_pos rfl, h3, hwp]
  simp

/-- Witness for C10's amended theorem at a concrete input (all obligations
met, yet the missing completion date forces `pending`). -/
theorem assessEligibility_conviction_no_completion_pending_witness :
    (assessEligibility
        { outcome := "convicted", allFinesPaid := true, probationCompleted := true }
        "misdemeanor" "convicted" 0).status = "pending" ∧
    (assessEligibility
        { outcome := "convicted", allFinesPaid := true, probationCompleted := true }
        "misdemeanor" "convicted" 0).waitingPeriodMet = false ∧
    (assessEligibility
        { outcome := "convicted", allFinesPaid := true, probationCompleted := true }
        "misdemeanor" "convicted" 0).status ≠ "eligible" :=
  assessEligibility_conviction_no_completion_pending _ "misdemeanor" 0 rfl rfl (by decide)

/-- C10 (counterexample): the claim as stated quantifies over *every* input
with a conviction outcome and no completion date; an input that also has
pending charges is `ineligible`, not `pending`. -/
theorem assessEligibility_conviction_pendingCharges_not_pending :
    (assessEligibility { hasPendingCharges := true } "misdemeanor" "convicted" 0).status
        = "ineligible" ∧
    (assessEligibility { hasPendingCharges := true } "misdemeanor" "convicted" 0).status
        ≠ "pending" ∧
    ({ hasPendingCharges := true } : CrimSituation).sentenceCompletionDate = none := by
  refine ⟨by decide, by decide, rfl⟩

/-- C3 (counterexample): `calculateYearsSince` (`src/unnamed/part_000`)
applies `Math.floor` to the 365.25-day-year quotient, so a
disposition/completion date lying in the future produces a *negative*
years-elapsed value — refuting "never negative (in particular not negative
when the date lies in the future)".  Here the date is two average years
after `now = 0`. -/
theorem calculateYearsSince_negative_for_future_date :
    calculateYearsSince (some (2 * 31557600000)) 0 = -2 ∧
    calculateYearsSince (some (2 * 31557600000)) 0 < 0 := by
  refine ⟨by decide, by decide⟩

/-- C3 (amended): for dates not in the future, `calculateYearsSince`
(`src/unnamed/part_000`) equals the floored 365.25-day-year quotient of the
spec and is nonnegative; but the waiting-period check of
`src/unnamed/part_004` (`checkWaitingPeriod`) instead compares the
*un-floored* quotient by a **365-day** year against the threshold: its `met`
flag holds exactly when `threshold · (365 days in ms)` milliseconds have
elapsed since the completion date. -/
theorem yearsElapsed_amended (d now c : Int) (s : CrimSituation)
    (category : String) (hd : d ≤ now) (hc : s.sentenceCompletionDate = some c) :
    (calculateYearsSince (some d) now = yearsFloorSpec (now - d) ∧
     0 ≤ calculateYearsSince (some d) now) ∧
    ((checkWaitingPeriod s category now).met = true ↔
      (if category = "felony" then (5 : Int) else 1) * (msPerYear365 : Int) ≤ now - c) := by
  constructor
  · constructor
    · rw [calculateYearsSince, yearsFloorSpec, jsFloorDiv_eq_floor]
    · exact Int.ediv_nonneg (sub_nonneg.2 hd) (by positivity)
  · have hred : checkWaitingPeriod s category now =
        if category = "felony" then
          (⟨"5 years", decide ((((now - c : Int) : ℚ) / (msPerYear365 : ℚ)) ≥ 5)⟩ :
            WaitingCheck)
        else
          ⟨"1 year", decide ((((now - c : Int) : ℚ) / (msPerYear365 : ℚ)) ≥ 1)⟩ := by
      rw [checkWaitingPeriod, hc]
    rw [hred]
    have hpos : (0 : ℚ) < (msPerYear365 : ℚ) := by norm_num [msPerYear365]
    by_cases hcat : category = "felony"
    · rw [if_pos hcat, if_pos hcat]
      show decide _ = true ↔ _
      rw [decide_eq_true_eq, ge_iff_le, le_div_iff₀ hpos]
      exact_mod_cast Iff.rfl
    · rw [if_neg hcat, if_neg hcat]
      show decide _ = true ↔ _
      rw [decide_eq_true_eq, ge_iff_le, le_div_iff₀ hpos]
      exact_mod_cast Iff.rfl

/-- Witness for C3's amended theorem: completion exactly five 365-day years
before `now` meets the felony waiting period, and the elapsed-years value
for that past date is the nonnegative floored quotient. -/
theorem yearsElapsed_amended_witness :
    (calculateYearsSince (some 0) 157680000000 = yearsFloorSpec (157680000000 - 0) ∧
     0 ≤ calculateYearsSince (some 0) 157680000000) ∧
    ((checkWaitingPeriod { sentenceCompletionDate := some 0 } "felony"
        157680000000).met = true ↔
      (if "felony" = "felony" then (5 : Int) else 1) * (msPerYear365 : Int) ≤
        157680000000 - 0) :=
  yearsElapsed_amended 0 157680000000 0 _ "felony" (by decide) rfl

/-- C4 (counterexample): `determineProcedure` (`src/unnamed/part_004`) never
surfaces a `PolicyIntegrityError` (no such error exists in the code): an
outcome absent from `proceduresMap` falls back to the key `'general'`, and
when that key is missing from the procedures table the function silently
returns `null` (`procedures.procedures[procedureKey] || null`) instead of
erroring. -/
theorem determineProcedure_silent_null :
    (proceduresMapLookup "unknown" "unknown").getD "general" = "general" ∧
    ([("dismissedCharges", "p")] : List (String × String)).lookup "general" = none ∧
    determineProcedure "unknown" "unknown" [("dismissedCharges", "p")] = none := by
  refine ⟨rfl, rfl, by decide⟩

/-- C4 (amended): `determineProcedure` is total (no branch raises): it looks
up the outcome's procedure key (defaulting to `'general'`) in the procedures
table, returning the table entry when present and `null` (`none`) — not an
error — when absent. -/
theorem determineProcedure_characterization (outcome category : String)
    (table : List (String × String)) :
    (∀ v, table.lookup ((proceduresMapLookup outcome category).getD "general") = some v →
        determineProcedure outcome category table = some v) ∧
    (table.lookup ((proceduresMapLookup outcome category).getD "general") = none →
        determineProcedure outcome category table = none) :=
  ⟨fun _ h => h, fun h => h⟩

/-- Witness for C4's amended theorem: a present key yields its procedure. -/
theorem determineProcedure_characterization_witness :
    determineProcedure "dismissed" "misdemeanor" [("dismissedCharges", "p")] = some "p" :=
  (determineProcedure_characterization "dismissed" "misdemeanor"
    [("dismissedCharges", "p")]).1 "p" (by decide)

/-- First-match evaluation over a four-rule list unfolds to the rule
conditions in order. -/
theorem firstMatch4 (k1 k2 k3 k4 : List String) (c1 c2 c3 c4 dflt text : String) :
    firstMatchCategory [(k1, c1), (k2, c2), (k3, c3), (k4, c4)] dflt text =
      if k1.any (fun k => jsIncludes text k) then c1
      else if k2.any (fun k => jsIncludes text k) then c2
      else if k3.any (fun k => jsIncludes text k) then c3
      else if k4.any (fun k => jsIncludes text k) then c4
      else dflt := by
  rw [firstMatchCategory]
  rcases h1 : k1.any (fun k => jsIncludes text k) <;>
    rcases h2 : k2.any (fun k => jsIncludes text k) <;>
      rcases h3 : k3.any (fun k => jsIncludes text k) <;>
        rcases h4 : k4.any (fun k => jsIncludes text k) <;>
          simp [List.find?, h1, h2, h3, h4]

/-- C5: both classifiers implement the spec's first-match rule evaluation.
For every input, `determineEvictionType` (`src/lib/eviction-situation-analyzer.js`)
returns the category of the first rule of its ordered keyword list whose
keyword set matches the lowercased description (case-insensitive substring
match), the default category `nonpayment` when none matches, and never an
error; likewise `determineEvictionType` of `src/unnamed/part_001` over its
own rule list.  The final conjunct is a concrete two-category overlap: a
description matching both the `nonpayment` keywords (`"rent"`) and the
`leaseViolation` keywords (`"violation"`) classifies as the earlier rule's
category, `nonpayment`. -/
theorem evictionClassifier_first_match :
    (∀ data : EvSituation,
      (determineEvictionType data).type =
        firstMatchCategory libEvictionRules "nonpayment" (jsToLower data.evictionReason)) ∧
    (∀ reason : String,
      determineEvictionTypeMS reason =
        firstMatchCategory msEvictionRules "nonpayment" reason) ∧
    (determineEvictionType { evictionReason := "Rent dispute over lease violation" }).type
      = "nonpayment" := by
  refine ⟨fun data => ?_, fun reason => ?_, by decide⟩
  · rw [libEvictionRules, firstMatch4, determineEvictionType]
    simp only [List.any_cons, List.any_nil, Bool.or_false, Bool.or_assoc]
    split_ifs <;> rfl
  · rw [msEvictionRules, firstMatch4, determineEvictionTypeMS]
    simp only [List.any_cons, List.any_nil, Bool.or_false, Bool.or_assoc]

/-- The court-date block never changes the `compliant` flag. -/
theorem courtStep_compliant (data : EvSituation) (now : Int) (a : TimelineAnalysis) :
    (courtStep data now a).compliant = a.compliant := by
  rw [courtStep]
  rcases data.courtDate with _ | c
  · rfl
  · dsimp only
    split_ifs <;> rfl

/-- The judgment block never changes the `compliant` flag. -/
theorem judgmentStep_compliant (data : EvSituation) (now : Int) (a : TimelineAnalysis) :
    (judgmentStep data now a).compliant = a.compliant := by
  rw [judgmentStep]
  by_cases h : data.judgmentReceived = true
  · rw [if_pos h]
    dsimp only
    split_ifs <;> rfl
  · rw [if_neg h]

/-- The court-date block only appends issues, all of court-date types. -/
theorem courtStep_issues (data : EvSituation) (now : Int) (a : TimelineAnalysis) :
    ∃ Δ, (courtStep data now a).issues = a.issues ++ Δ ∧
      ∀ i ∈ Δ, i.itype = "past_court_date" ∨ i.itype = "urgent_court_date" ∨
        i.itype = "upcoming_court_date" := by
  rw [courtStep]
  rcases data.courtDate with _ | c
  · exact ⟨[], by simp⟩
  · dsimp only
    split_ifs
    · exact ⟨[⟨"past_court_date", "critical", none⟩], rfl, by simp⟩
    · exact ⟨[⟨"urgent_court_date", "critical", none⟩], rfl, by simp⟩
    · exact ⟨[⟨"upcoming_court_date", "high", none⟩], rfl, by simp⟩
    · exact ⟨[], by simp⟩

/-- The judgment block only appends issues, all of appeal types. -/
theorem judgmentStep_issues (data : EvSituation) (now : Int) (a : TimelineAnalysis) :
    ∃ Δ, (judgmentStep data now a).issues = a.issues ++ Δ ∧
      ∀ i ∈ Δ, i.itype = "appeal_deadline" ∨ i.itype = "appeal_deadline_passed" := by
  rw [judgmentStep]
  by_cases h : data.judgmentReceived = true
  · rw [if_pos h]
    dsimp only
    split_ifs
    · exact ⟨[⟨"appeal_deadline", "critical", none⟩], rfl, by simp⟩
    · exact ⟨[⟨"appeal_deadline_passed", "critical", none⟩], rfl, by simp⟩
  · rw [if_neg h]
    exact ⟨[], by simp⟩

/-- When both dates are present, the notice block reduces to the boundary
comparison `daysBetween < noticeRequired`. -/
theorem noticeStep_eq (data : EvSituation) (a : TimelineAnalysis) (n f : Int)
    (hn : data.noticeDate = some n) (hf : data.filingDate = some f) :
    noticeStep data a =
      if jsFloorDiv (f - n) msPerDay < (determineEvictionType data).noticeRequired then
        { a with
          calculationDetails :=
            { a.calculationDetails with
              daysBetweenNoticeAndFiling := some (jsFloorDiv (f - n) msPerDay),
              requiredDays := some (determineEvictionType data).noticeRequired },
          compliant := false,
          issues := a.issues ++
            [⟨"insufficient_notice", "high", some "improper_notice"⟩] }
      else
        { a with
          calculationDetails :=
            { a.calculationDetails with
              daysBetweenNoticeAndFiling := some (jsFloorDiv (f - n) msPerDay),
              requiredDays := some (determineEvictionType data).noticeRequired } } := by
  rw [noticeStep, hn, hf]

/-- C6: for every pair of present `noticeDate`/`filingDate`, notice compliance
holds exactly when the whole-day (floored) difference reaches the category's
required notice period: `compliant` is true iff `requiredDays ≤ daysBetween`
(so the boundary `daysBetween = requiredDays` is compliant), no
`insufficient_notice` issue is recorded in that case, and
`daysBetween < requiredDays` (in particular `requiredDays - 1`) yields
`compliant = false` together with an `insufficient_notice` issue pointing at
the `improper_notice` defense. -/
theorem analyzeTimeline_notice_boundary (data : EvSituation) (n f now : Int)
    (hn : data.noticeDate = some n) (hf : data.filingDate = some f) :
    ((analyzeTimeline data now).compliant = true ↔
      (determineEvictionType data).noticeRequired ≤ jsFloorDiv (f - n) msPerDay) ∧
    ((determineEvictionType data).noticeRequired ≤ jsFloorDiv (f - n) msPerDay →
      ∀ i ∈ (analyzeTimeline data now).issues, i.itype ≠ "insufficient_notice") ∧
    (jsFloorDiv (f - n) msPerDay < (determineEvictionType data).noticeRequired →
      (analyzeTimeline data now).compliant = false ∧
      ∃ i ∈ (analyzeTimeline data now).issues,
        i.itype = "insufficient_notice" ∧ i.defense = some "improper_notice") := by
  obtain ⟨Δc, hc, hct⟩ := courtStep_issues data now (noticeStep data
    { noticeGiven := data.noticeReceived, issues := [], compliant := true,
      calculationDetails := {} })
  obtain ⟨Δj, hj, hjt⟩ := judgmentStep_issues data now (courtStep data now
    (noticeStep data
      { noticeGiven := data.noticeReceived, issues := [], compliant := true,
        calculationDetails := {} }))
  have hI : (analyzeTimeline data now).issues =
      (noticeStep data
        { noticeGiven := data.noticeReceived, issues := [], compliant := true,
          calculationDetails := {} }).issues ++ Δc ++ Δj := by
    rw [analyzeTimeline, hj, hc]
  have hC : (analyzeTimeline data now).compliant =
      (noticeStep data
        { noticeGiven := data.noticeReceived, issues := [], compliant := true,
          calculationDetails := {} }).compliant := by
    rw [analyzeTimeline, judgmentStep_compliant, courtStep_compliant]
  have hns := noticeStep_eq data
    { noticeGiven := data.noticeReceived, issues := [], compliant := true,
      calculationDetails := {} } n f hn hf
  by_cases hd : jsFloorDiv (f - n) msPerDay < (determineEvictionType data).noticeRequired
  · rw [if_pos hd] at hns
    refine ⟨?_, fun hle => absurd hle (not_le.mpr hd), fun _ => ⟨?_, ?_⟩⟩
    · rw [hC, hns]
      simp [not_le.mpr hd]
    · rw [hC, hns]
    · refine ⟨⟨"insufficient_notice", "high", some "improper_notice"⟩, ?_, rfl, rfl⟩
      rw [hI, hns]
      simp
  · rw [if_neg hd] at hns
    refine ⟨?_, fun _ i hi => ?_, fun hdd => absurd hdd hd⟩
    · rw [hC, hns]
      simp [not_lt.mp hd]
    · rw [hI, hns] at hi
      simp only [List.append_assoc, List.mem_append] at hi
      rcases hi with hi | hi | hi
      · simp at hi
      · rcases hct i hi with h | h | h <;> simp [h]
      · rcases hjt i hi with h | h <;> simp [h]

/-- Witness for C6 at the compliance boundary: reason "non-payment of rent"
(14-day category), notice and filing exactly 14 days apart — compliant, no
`insufficient_notice` issue. -/
theorem analyzeTimeline_notice_boundary_witness :
    ((analyzeTimeline
        { evictionReason := "non-payment of rent", noticeDate := some 0,
          filingDate := some 1209600000 } 0).compliant = true ↔
      (determineEvictionType
        { evictionReason := "non-payment of rent", noticeDate := some 0,
          filingDate := some 1209600000 }).noticeRequired ≤
        jsFloorDiv (1209600000 - 0) msPerDay) ∧
    ((determineEvictionType
        { evictionReason := "non-payment of rent", noticeDate := some 0,
          filingDate := some 1209600000 }).noticeRequired ≤
        jsFloorDiv (1209600000 - 0) msPerDay →
      ∀ i ∈ (analyzeTimeline
        { evictionReason := "non-payment of rent", noticeDate := some 0,
          filingDate := some 1209600000 } 0).issues,
        i.itype ≠ "insufficient_notice") ∧
    (jsFloorDiv (1209600000 - 0) msPerDay <
        (determineEvictionType
          { evictionReason := "non-payment of rent", noticeDate := some 0,
            filingDate := some 1209600000 }).noticeRequired →
      (analyzeTimeline
        { evictionReason := "non-payment of rent", noticeDate := some 0,
          filingDate := some 1209600000 } 0).compliant = false ∧
      ∃ i ∈ (analyzeTimeline
        { evictionReason := "non-payment of rent", noticeDate := some 0,
          filingDate := some 1209600000 } 0).issues,
        i.itype = "insufficient_notice" ∧ i.defense = some "improper_notice") :=
  analyzeTimeline_notice_boundary _ 0 1209600000 0 rfl rfl

/-- C7: `prioritizeDefenses` is a stable sort by strength tier.  The output
is a permutation of the input; adjacent elements are ordered by nondecreasing
strength rank (`strong` before `moderate` before `potential`); and for every
strength the subsequence of that strength is exactly the input's, i.e. ties
keep their original declared order. -/
theorem prioritizeDefenses_stable_sort (l : List Defense) :
    (prioritizeDefenses l).Perm l ∧
    (prioritizeDefenses l).Pairwise
      (fun a b => strengthOrder a.strength ≤ strengthOrder b.strength) ∧
    ∀ s : String,
      (prioritizeDefenses l).filter (fun d => d.strength == s) =
        l.filter (fun d => d.strength == s) := by
  refine ⟨?_, ?_, ?_⟩
  · induction l with
    | nil => simp [prioritizeDefenses]
    | cons x xs ih =>
      rw [prioritizeDefenses, List.foldr_cons]
      exact (insertByStrength_perm x _).trans (ih.cons x)
  · induction l with
    | nil => simp [prioritizeDefenses]
    | cons x xs ih =>
      rw [prioritizeDefenses, List.foldr_cons]
      exact insertByStrength_pairwise x _ ih
  · intro s
    induction l with
    | nil => rfl
    | cons x xs ih =>
      rw [prioritizeDefenses, List.foldr_cons]
      by_cases hx : x.strength = s
      · rw [insertByStrength_filter_pos _ _ _ hx]
        rw [prioritizeDefenses] at ih
        rw [ih, List.filter_cons]
        simp [hx]
      · rw [insertByStrength_filter_neg _ _ _ hx]
        rw [prioritizeDefenses] at ih
        rw [ih, List.filter_cons]
        simp [hx]

/-- C8 (amended): the appeal-window computation is gated on the
`judgmentReceived` flag (not on the presence of a judgment date, see the
counterexample): when `judgmentReceived` is set, the judgment date defaults
to `now` if absent, the remaining window is `max(0, 10 - daysSinceJudgment)`
with the 10-day window hard-coded, and reaching zero is reported as the
distinct `appeal_deadline_passed` issue while a positive remainder yields
the `appeal_deadline` issue. -/
theorem judgment_appeal_window (data : EvSituation) (now : Int)
    (h : data.judgmentReceived = true) :
    (analyzeTimeline data now).calculationDetails.daysLeftToAppeal =
      some (max 0 (10 - jsFloorDiv (now - data.judgmentDate.getD now) msPerDay)) ∧
    (max 0 (10 - jsFloorDiv (now - data.judgmentDate.getD now) msPerDay) = 0 →
      ∃ i ∈ (analyzeTimeline data now).issues, i.itype = "appeal_deadline_passed") ∧
    (0 < max 0 (10 - jsFloorDiv (now - data.judgmentDate.getD now) msPerDay) →
      ∃ i ∈ (analyzeTimeline data now).issues, i.itype = "appeal_deadline") := by
  rw [analyzeTimeline, judgmentStep, if_pos h]
  dsimp only
  split_ifs with hpos
  · refine ⟨rfl, fun h0 => absurd (h0 ▸ hpos) (lt_irrefl 0), fun _ =>
      ⟨⟨"appeal_deadline", "critical", none⟩, by simp, rfl⟩⟩
  · refine ⟨rfl, fun _ =>
      ⟨⟨"appeal_deadline_passed", "critical", none⟩, by simp, rfl⟩,
      fun hp => absurd hp hpos⟩

/-- Witness for C8's amended theorem, the spec's example scenario 5:
judgment received 11 days ago with a 10-day window — zero days left and the
distinct `appeal_deadline_passed` issue. -/
theorem judgment_appeal_window_witness :
    (analyzeTimeline { judgmentReceived := true, judgmentDate := some 0 }
        950400000).calculationDetails.daysLeftToAppeal =
      some (max 0 (10 - jsFloorDiv (950400000 -
        ({ judgmentReceived := true, judgmentDate := some 0 } :
          EvSituation).judgmentDate.getD 950400000) msPerDay)) ∧
    (max 0 (10 - jsFloorDiv (950400000 -
        ({ judgmentReceived := true, judgmentDate := some 0 } :
          EvSituation).judgmentDate.getD 950400000) msPerDay) = 0 →
      ∃ i ∈ (analyzeTimeline { judgmentReceived := true, judgmentDate := some 0 }
        950400000).issues, i.itype = "appeal_deadline_passed") ∧
    (0 < max 0 (10 - jsFloorDiv (950400000 -
        ({ judgmentReceived := true, judgmentDate := some 0 } :
          EvSituation).judgmentDate.getD 950400000) msPerDay) →
      ∃ i ∈ (analyzeTimeline { judgmentReceived := true, judgmentDate := some 0 }
        950400000).issues, i.itype = "appeal_deadline") :=
  judgment_appeal_window _ 950400000 rfl

/-- C8 (counterexample): a *present* judgment date alone does not trigger the
appeal-window computation.  With `judgmentDate` one day in the past but
`judgmentReceived = false`, the claim expects a remaining window of
`max(0, 10 - 1) = 9`; the code computes nothing (`daysLeftToAppeal` absent)
and raises no appeal issue. -/
theorem appealWindow_requires_judgmentReceived :
    ({ judgmentDate := some 0 } : EvSituation).judgmentDate = some 0 ∧
    (analyzeTimeline { judgmentDate := some 0 } 86400000).calculationDetails.daysLeftToAppeal
      = none ∧
    ∀ i ∈ (analyzeTimeline { judgmentDate := some 0 } 86400000).issues,
      i.itype ≠ "appeal_deadline" ∧ i.itype ≠ "appeal_deadline_passed" := by
  refine ⟨rfl, by decide, by decide⟩

/-- C2 (counterexample): a nonpayment eviction with notice and filing only
10 days apart (14 required) is timeline-non-compliant, yet because the
tenant *received* the notice (`noticeReceived = true`) the `improper_notice`
defense is produced at strength `potential`, and no defense in the list is
`strong` — refuting the claim that failed notice-period compliance yields a
`strong` "improper notice" defense.  (`mapProcedureDefense` keys the
strength on the `noticeReceived` flag, not on the compliance computation.) -/
theorem improperNotice_not_strong_despite_noncompliance :
    (analyzeSituationEv specDefenseStrategies
      { evictionReason := "non-payment of rent", noticeReceived := true,
        noticeDate := some 0, filingDate := some 864000000 }
      864000000).timelineAnalysis.compliant = false ∧
    (∃ d ∈ (analyzeSituationEv specDefenseStrategies
      { evictionReason := "non-payment of rent", noticeReceived := true,
        noticeDate := some 0, filingDate := some 864000000 }
      864000000).defenses, d.id = "improper_notice" ∧ d.strength = "potential") ∧
    ∀ d ∈ (analyzeSituationEv specDefenseStrategies
      { evictionReason := "non-payment of rent", noticeReceived := true,
        noticeDate := some 0, filingDate := some 864000000 }
      864000000).defenses, d.strength ≠ "strong" := by
  refine ⟨by decide, by decide, by decide⟩

/-- C2 (amended): the strength of a policy-declared `improper_notice` defense
is decided by the `noticeReceived` flag alone — `strong` exactly when the
tenant did not receive the notice, `potential` otherwise — independent of
the notice-period compliance computation; non-compliance is recorded
separately as the timeline's `insufficient_notice` issue (see C6). -/
theorem mapProcedureDefense_improper_notice (pd : ProcedureDefense)
    (data : EvSituation) (h : pd.id = "improper_notice") :
    (mapProcedureDefense pd data).strength =
      (if data.noticeReceived then "potential" else "strong") := by
  rw [mapProcedureDefense]
  dsimp only
  rw [if_pos (Or.inl h)]

/-- Witness for C2's amended theorem: notice received, so `potential`. -/
theorem mapProcedureDefense_improper_notice_witness :
    (mapProcedureDefense ⟨"improper_notice", "Improper Notice"⟩
        { noticeReceived := true }).strength =
      (if ({ noticeReceived := true } : EvSituation).noticeReceived then
        "potential" else "strong") :=
  mapProcedureDefense_improper_notice _ _ rfl

/-- C9 (counterexample): repeated evaluation does not produce byte-identical
records — `analyzeSituation` stamps each result with the evaluation instant
(`timestamp: new Date().toISOString()`), so two runs of the same input and
policy at different instants differ. -/
theorem analyzeSituation_not_identical_across_runs :
    analyzeSituationEv specDefenseStrategies
        { evictionReason := "non-payment of rent" } 0 ≠
      analyzeSituationEv specDefenseStrategies
        { evictionReason := "non-payment of rent" } 86400000 := by
  decide

/-- C9 (amended): evaluation is a pure function of the input record, the
policy tables and the clock instant: two evaluations of equal inputs at the
same instant yield equal records in every field. -/
theorem analyzeSituation_deterministic (strategies : String → List ProcedureDefense)
    (d1 d2 : EvSituation) (t1 t2 : Int) (hd : d1 = d2) (ht : t1 = t2) :
    analyzeSituationEv strategies d1 t1 = analyzeSituationEv strategies d2 t2 := by
  rw [hd, ht]

/-- Witness for C9's amended theorem at a concrete input. -/
theorem analyzeSituation_deterministic_witness :
    analyzeSituationEv specDefenseStrategies
        { evictionReason := "non-payment of rent" } 0 =
      analyzeSituationEv specDefenseStrategies
        { evictionReason := "non-payment of rent" } 0 :=
  analyzeSituation_deterministic specDefenseStrategies _ _ 0 0 rfl rfl
